import Mathlib

/-!
Verification development for the QuickConverter repository.

The embedding below translates the format-dispatch and conversion pipeline
of the repository into Lean:

  * src/lib/file-processing.ts        : extension utilities and format sets
  * src/lib/analytics.ts              : bounded in-memory analytics log
  * src/lib/server-file-processing.ts : converter adapters
  * src/unnamed/part_000              : the POST /api/convert request handler

Modelling conventions:

  * Byte buffers are `List Nat`.  Text stored in buffers is modelled at the
    code-point level (`strToBytes` / `bytesToStr`), which agrees with the
    UTF-8 bytes of the source for the ASCII data handled in the theorems.
  * JavaScript numbers used by the analytics summary and the PDF geometry
    are modelled as exact rationals.
  * Calls into third-party engines (sharp, ffmpeg, pdf-lib, mammoth) are
    abstracted as function parameters collected in an `Env` structure; each
    such call either returns bytes or fails with a message, mirroring a
    JavaScript throw.  A thrown `Error` interpolated into a template string
    renders as "Error: " followed by its message, which is reproduced at
    every wrapping site.
-/

/-! # Character and string helpers -/

/-- One character of JavaScript `String.prototype.toLowerCase` (ASCII
    range, which covers every extension the repository compares against). -/
def lowerChar (c : Char) : Char :=
  if 65 ≤ c.toNat ∧ c.toNat ≤ 90 then Char.ofNat (c.toNat + 32) else c

/-- JavaScript `toLowerCase` on a character list. -/
def lowerStr (l : List Char) : List Char := l.map lowerChar

/-- JavaScript `String.prototype.split(sep)` for a one-character separator:
    the list of (possibly empty) segments between occurrences of `sep`.
    On the empty string it returns one empty segment, as in JavaScript. -/
def splitOnChar (sep : Char) : List Char → List (List Char)
  | [] => [[]]
  | c :: rest =>
    match splitOnChar sep rest with
    | [] => [[]]
    | s :: ss => if c = sep then [] :: s :: ss else (c :: s) :: ss

/-- Last element of a split result (JavaScript `Array.prototype.pop` on the
    non-empty array produced by `split`). -/
def lastSeg : List (List Char) → List Char
  | [] => []
  | [s] => s
  | _ :: rest => lastSeg rest

/-- First element of a split result (`split('.')[0]`). -/
def firstSeg (l : List Char) : List Char := l.takeWhile (fun c => c ≠ '.')

/-- Text to buffer contents (`Buffer.from(text, 'utf-8')`), at code-point
    level; identical to the UTF-8 bytes for ASCII text. -/
def strToBytes (s : String) : List Nat := s.toList.map Char.toNat

/-- Buffer contents to text (`buffer.toString('utf-8')`), at code-point
    level; identical to UTF-8 decoding for ASCII data. -/
def bytesToStr (b : List Nat) : String := String.mk (b.map Char.ofNat)

/-- Naive substring test used to state that a produced document contains a
    literal text marker. -/
def containsSub (pat : List Char) : List Char → Bool
  | [] => pat.isEmpty
  | c :: rest => (pat.isPrefixOf (c :: rest)) || containsSub pat rest

/-- JavaScript `String.prototype.endsWith` on character lists. -/
def endsWithSeg (suffix l : List Char) : Bool :=
  suffix.isSuffixOf l

/-! # src/lib/file-processing.ts -/

/-- Embeds `getFileExtension` (src/lib/file-processing.ts, lines 251-253):
    `filename.split('.').pop()?.toLowerCase() || ''`.
    `split('.')` always yields a non-empty array, so `pop()` is never
    `undefined`; `toLowerCase` of the empty segment is the empty string, so
    the `|| ''` fallback never changes the value.  The result is therefore
    the lower-cased segment after the last dot, and the whole lower-cased
    name when the name has no dot. -/
def getFileExtension (filename : String) : String :=
  String.mk (lowerStr (lastSeg (splitOnChar '.' filename.toList)))

/-- Embeds `isValidImageFormat` (src/lib/file-processing.ts). -/
def isValidImageFormat (format : String) : Bool :=
  ["jpeg", "jpg", "png", "webp", "avif", "gif", "svg", "ico", "tiff"].contains format

/-- Embeds `isWatermarkRemovalFormat` (src/lib/file-processing.ts). -/
def isWatermarkRemovalFormat (format : String) : Bool :=
  format = "watermark-removed"

/-- Embeds `isValidIconFormat` (src/lib/file-processing.ts). -/
def isValidIconFormat (format : String) : Bool :=
  ["ico", "svg"].contains format

/-- Embeds `isValidVectorFormat` (src/lib/file-processing.ts). -/
def isValidVectorFormat (format : String) : Bool :=
  ["svg"].contains format

/-- Embeds `isValidVideoFormat` (src/lib/file-processing.ts). -/
def isValidVideoFormat (format : String) : Bool :=
  ["mp4", "avi", "mov", "webm", "mkv", "flv"].contains format

/-- Embeds `isValidAudioFormat` (src/lib/file-processing.ts). -/
def isValidAudioFormat (format : String) : Bool :=
  ["mp3", "wav", "aac", "ogg", "flac"].contains format

/-- Embeds `isValidDocumentFormat` (src/lib/file-processing.ts). -/
def isValidDocumentFormat (format : String) : Bool :=
  ["pdf", "docx", "doc", "rtf", "txt"].contains format

/-- Embeds `isValidCodeFormat` (src/lib/file-processing.ts). -/
def isValidCodeFormat (format : String) : Bool :=
  ["js", "ts", "jsx", "tsx", "html", "css", "json", "xml", "yaml", "yml"].contains format

/-- Coarse media kind of a file, as dispatched on by the request handler. -/
inductive FileKind where
  | icon
  | image
  | video
  | document
  | code
  | unknown
  deriving DecidableEq, Repr

/-- Kind of an extension, in exactly the order the POST handler in
    src/unnamed/part_000 tests the `isValid*Format` predicates: icon first,
    then image, video, document, code, otherwise unknown (the handler has
    no audio branch; audio extensions fall through to unknown). -/
def classifyExt (ext : String) : FileKind :=
  if isValidIconFormat ext then FileKind.icon
  else if isValidImageFormat ext then FileKind.image
  else if isValidVideoFormat ext then FileKind.video
  else if isValidDocumentFormat ext then FileKind.document
  else if isValidCodeFormat ext then FileKind.code
  else FileKind.unknown

/-- The format classifier of the specification: kind of a file name,
    computed from `getFileExtension` exactly as the POST handler does. -/
def classify (fileName : String) : FileKind :=
  classifyExt (getFileExtension fileName)

/-! ## Lemmas about the classifier -/

theorem lowerChar_toNat (c : Char) (h1 : 65 ≤ c.toNat) (h2 : c.toNat ≤ 90) :
    (lowerChar c).toNat = c.toNat + 32 := by
  unfold lowerChar
  rw [if_pos ⟨h1, h2⟩]
  have hv : (c.toNat + 32).isValidChar := Or.inl (by omega)
  unfold Char.ofNat
  rw [dif_pos hv]
  rfl

theorem lowerChar_eq_dot_iff (c : Char) : lowerChar c = '.' ↔ c = '.' := by
  constructor
  · intro h
    by_cases hc : 65 ≤ c.toNat ∧ c.toNat ≤ 90
    · exfalso
      have ht := lowerChar_toNat c hc.1 hc.2
      rw [h] at ht
      have h46 : ('.' : Char).toNat = 46 := rfl
      omega
    · unfold lowerChar at h
      rw [if_neg hc] at h
      exact h
  · intro h
    subst h
    rfl

theorem lowerChar_not_upper (c : Char) :
    ¬ (65 ≤ (lowerChar c).toNat ∧ (lowerChar c).toNat ≤ 90) := by
  by_cases hc : 65 ≤ c.toNat ∧ c.toNat ≤ 90
  · have ht := lowerChar_toNat c hc.1 hc.2
    omega
  · unfold lowerChar
    rw [if_neg hc]
    exact hc

theorem lowerChar_idem (c : Char) : lowerChar (lowerChar c) = lowerChar c := by
  have h := lowerChar_not_upper c
  conv_lhs => rw [lowerChar]
  rw [if_neg h]

theorem splitOnChar_ne_nil (sep : Char) (l : List Char) : splitOnChar sep l ≠ [] := by
  cases l with
  | nil => simp [splitOnChar]
  | cons c rest =>
    simp only [splitOnChar]
    cases h : splitOnChar sep rest with
    | nil => simp
    | cons s ss =>
      by_cases hc : c = sep <;> simp [hc]

theorem splitOnChar_map_lower :
    ∀ l : List Char,
      splitOnChar '.' (l.map lowerChar) = (splitOnChar '.' l).map (List.map lowerChar)
  | [] => rfl
  | c :: rest => by
    have ih := splitOnChar_map_lower rest
    cases h : splitOnChar '.' rest with
    | nil => exact absurd h (splitOnChar_ne_nil _ _)
    | cons s ss =>
      have hm : splitOnChar '.' (rest.map lowerChar)
          = (s.map lowerChar) :: ss.map (List.map lowerChar) := by
        rw [ih, h]
        rfl
      by_cases hc : c = '.'
      · subst hc
        have hld : lowerChar '.' = '.' := rfl
        simp only [List.map_cons, splitOnChar, hm, h, hld, if_pos]
        simp
      · have hlc : lowerChar c ≠ '.' := fun he => hc ((lowerChar_eq_dot_iff c).mp he)
        simp only [List.map_cons, splitOnChar, hm, h]
        rw [if_neg hlc, if_neg hc]
        simp

theorem lastSeg_map (f : List Char → List Char) :
    ∀ ls : List (List Char), ls ≠ [] → lastSeg (ls.map f) = f (lastSeg ls)
  | [], h => absurd rfl h
  | [s], _ => rfl
  | s :: s2 :: rest, _ => by
    have ih := lastSeg_map f (s2 :: rest) (by simp)
    simpa [lastSeg] using ih

theorem getFileExtension_lower (l : List Char) :
    getFileExtension (String.mk (l.map lowerChar)) = getFileExtension (String.mk l) := by
  unfold getFileExtension lowerStr
  have htl : (String.mk (l.map lowerChar)).toList = l.map lowerChar := rfl
  have htl2 : (String.mk l).toList = l := rfl
  rw [htl, htl2, splitOnChar_map_lower,
    lastSeg_map (List.map lowerChar) _ (splitOnChar_ne_nil _ _)]
  congr 1
  simp [List.map_map, Function.comp_def, lowerChar_idem]

theorem splitOnChar_no_sep (sep : Char) :
    ∀ l : List Char, sep ∉ l → splitOnChar sep l = [l]
  | [], _ => rfl
  | c :: rest, h => by
    have hc : c ≠ sep := fun he => h (he ▸ List.mem_cons_self c rest)
    have hr : sep ∉ rest := fun hm => h (List.mem_cons_of_mem c hm)
    have ih := splitOnChar_no_sep sep rest hr
    simp only [splitOnChar, ih]
    rw [if_neg hc]

/-! # src/lib/analytics.ts -/

/-- Embeds the `ConversionAnalytics` record.  `fileSize` and
    `processingTime` are JavaScript numbers, modelled as rationals;
    `timestamp` is a `Date`, modelled as its millisecond value. -/
structure ConversionAnalytics where
  id : String
  fileName : String
  originalFormat : String
  targetFormat : String
  fileSize : ℚ
  processingTime : ℚ
  success : Bool
  errorMessage : Option String
  timestamp : Int
  deriving DecidableEq, Repr

/-- The fields of `trackConversion`'s argument
    (`Omit<ConversionAnalytics, 'id' | 'timestamp'>`). -/
structure AnalyticsInput where
  fileName : String
  originalFormat : String
  targetFormat : String
  fileSize : ℚ
  processingTime : ℚ
  success : Bool
  errorMessage : Option String
  deriving DecidableEq, Repr

/-- Push-and-trim step of `trackConversion` (src/lib/analytics.ts,
    lines 52-57): `analyticsData.push(conversionData)` followed by
    `if (analyticsData.length > 1000) analyticsData = analyticsData.slice(-1000)`.
    `slice(-1000)` keeps the last 1000 elements, i.e. drops
    `length - 1000` from the front. -/
def record1 (e : ConversionAnalytics) (analyticsData : List ConversionAnalytics) :
    List ConversionAnalytics :=
  let d := analyticsData ++ [e]
  if d.length > 1000 then d.drop (d.length - 1000) else d

/-- Embeds `trackConversion` (src/lib/analytics.ts, lines 42-60).  The id
    produced by `generateId()` (a random base-36 string) and the `Date`
    captured by `new Date()` are nondeterministic inputs of the process
    environment, so they are passed as arguments.  The mutable module-level
    `analyticsData` array is passed and returned explicitly. -/
def trackConversion (analytics : AnalyticsInput) (id : String) (timestamp : Int)
    (analyticsData : List ConversionAnalytics) :
    String × List ConversionAnalytics :=
  let conversionData : ConversionAnalytics :=
    { id := id
      fileName := analytics.fileName
      originalFormat := analytics.originalFormat
      targetFormat := analytics.targetFormat
      fileSize := analytics.fileSize
      processingTime := analytics.processingTime
      success := analytics.success
      errorMessage := analytics.errorMessage
      timestamp := timestamp }
  (id, record1 conversionData analyticsData)

/-- Time range selector of `getAnalyticsSummary`. -/
inductive TimeRange where
  | day
  | week
  | month
  | all
  deriving DecidableEq, Repr

/-- The `filteredData` computed by the switch at the top of
    `getAnalyticsSummary` (src/lib/analytics.ts, lines 63-80):
    `day`, `week` and `month` keep the events whose timestamp is at least
    `now` minus 24 hours, 7 days and 30 days respectively (in
    milliseconds); `all` keeps everything. -/
def filteredOf (timeRange : TimeRange) (now : Int)
    (analyticsData : List ConversionAnalytics) : List ConversionAnalytics :=
  match timeRange with
  | TimeRange.day => analyticsData.filter (fun item => now - 24 * 60 * 60 * 1000 ≤ item.timestamp)
  | TimeRange.week =>
    analyticsData.filter (fun item => now - 7 * 24 * 60 * 60 * 1000 ≤ item.timestamp)
  | TimeRange.month =>
    analyticsData.filter (fun item => now - 30 * 24 * 60 * 60 * 1000 ≤ item.timestamp)
  | TimeRange.all => analyticsData

/-- The string key a summary groups an event under:
    `item.originalFormat + ' → ' + item.targetFormat`. -/
def pairKey (item : ConversionAnalytics) : String :=
  item.originalFormat ++ " → " ++ item.targetFormat

/-- One step of the `formatCounts` reduce: `acc[key] = (acc[key] || 0) + 1`
    on a plain object, which keeps string keys in insertion order. -/
def bumpCount (key : String) : List (String × Nat) → List (String × Nat)
  | [] => [(key, 1)]
  | (k, n) :: rest => if k = key then (k, n + 1) :: rest else (k, n) :: bumpCount key rest

/-- One step of the `formatTimes` reduce: push `t` onto `acc[key]`. -/
def pushTime (key : String) (t : ℚ) : List (String × List ℚ) → List (String × List ℚ)
  | [] => [(key, [t])]
  | (k, ts) :: rest =>
    if k = key then (k, ts ++ [t]) :: rest else (k, ts) :: pushTime key t rest

/-- One step of the `dailyGroups` reduce of `getDailyStats`: bump the
    conversion count, and the success count when the event succeeded, of
    the event's day. -/
def bumpDaily (day : Int) (succ : Bool) : List (Int × Nat × Nat) → List (Int × Nat × Nat)
  | [] => [(day, 1, if succ then 1 else 0)]
  | (d, c, s) :: rest =>
    if d = day then (d, c + 1, if succ then s + 1 else s) :: rest
    else (d, c, s) :: bumpDaily day succ rest

/-- The UTC day an event belongs to.  The source keys `dailyGroups` by
    `item.timestamp.toISOString().split('T')[0]`; two timestamps produce
    the same ISO date string exactly when they have the same floor of
    milliseconds over 86400000, and `localeCompare` order on the date
    strings agrees with numeric order on this value. -/
def dayKey (ts : Int) : Int := Int.fdiv ts 86400000

/-- Embeds `getDailyStats` (src/lib/analytics.ts, lines 228-247): group by
    day, map to per-day conversion count and success rate, sort
    chronologically (stable), keep the last 30 entries. -/
def getDailyStats (data : List ConversionAnalytics) : List (Int × Nat × ℚ) :=
  let dailyGroups :=
    data.foldl (fun acc item => bumpDaily (dayKey item.timestamp) item.success acc) []
  let mapped := dailyGroups.map
    (fun g => (g.1, g.2.1, ((g.2.2 : ℚ) / (g.2.1 : ℚ)) * 100))
  let sorted := mapped.mergeSort (fun a b => a.1 ≤ b.1)
  sorted.drop (sorted.length - 30)

/-- Embeds the `AnalyticsSummary` record.  `mostConvertedFormats` holds
    (format, count) pairs, `processingTimeByFormat` holds
    (format, avgTime) pairs, `dailyStats` holds
    (day, conversions, successRate) triples. -/
structure AnalyticsSummary where
  totalConversions : Nat
  successfulConversions : Nat
  failedConversions : Nat
  successRate : ℚ
  averageProcessingTime : ℚ
  totalStorageUsed : ℚ
  mostConvertedFormats : List (String × Nat)
  processingTimeByFormat : List (String × ℚ)
  dailyStats : List (Int × Nat × ℚ)
  deriving DecidableEq, Repr

/-- The statistics `getAnalyticsSummary` computes from its `filteredData`
    (src/lib/analytics.ts, lines 82-132).  JavaScript `Array.prototype.sort`
    is stable and is modelled by `List.mergeSort`; `slice(0, 10)` is
    `take 10`.  The divisions producing `successRate` and
    `averageProcessingTime` are guarded by `totalConversions > 0` exactly
    as in the source. -/
def computeSummary (filteredData : List ConversionAnalytics) : AnalyticsSummary :=
  let totalConversions := filteredData.length
  let successfulConversions := (filteredData.filter (fun item => item.success)).length
  let failedConversions := totalConversions - successfulConversions
  let successRate : ℚ :=
    if totalConversions > 0 then ((successfulConversions : ℚ) / (totalConversions : ℚ)) * 100
    else 0
  let averageProcessingTime : ℚ :=
    if totalConversions > 0 then
      (filteredData.foldl (fun sum item => sum + item.processingTime) 0) / (totalConversions : ℚ)
    else 0
  let totalStorageUsed : ℚ := filteredData.foldl (fun sum item => sum + item.fileSize) 0
  let formatCounts := filteredData.foldl (fun acc item => bumpCount (pairKey item) acc) []
  let mostConvertedFormats :=
    (formatCounts.mergeSort (fun a b => b.2 ≤ a.2)).take 10
  let formatTimes := filteredData.foldl (fun acc item => pushTime (pairKey item) item.processingTime acc) []
  let processingTimeByFormat :=
    ((formatTimes.map (fun g => (g.1, g.2.foldl (fun sum t => sum + t) 0 / (g.2.length : ℚ)))).mergeSort
      (fun a b => b.2 ≤ a.2)).take 10
  { totalConversions := totalConversions
    successfulConversions := successfulConversions
    failedConversions := failedConversions
    successRate := successRate
    averageProcessingTime := averageProcessingTime
    totalStorageUsed := totalStorageUsed
    mostConvertedFormats := mostConvertedFormats
    processingTimeByFormat := processingTimeByFormat
    dailyStats := getDailyStats filteredData }

/-- Embeds `getAnalyticsSummary` (src/lib/analytics.ts, lines 62-133):
    filter the store by the requested time range, then compute every
    statistic from the filtered data.  `now` is the `Date` captured at the
    top of the call. -/
def getAnalyticsSummary (timeRange : TimeRange) (now : Int)
    (analyticsData : List ConversionAnalytics) : AnalyticsSummary :=
  computeSummary (filteredOf timeRange now analyticsData)

/-! # src/lib/server-file-processing.ts : TypeScript-to-JavaScript adapter

The adapter is a sequence of JavaScript global regex replacements.  Each
regex of the source is embedded as a matcher returning the number of
characters a match starting at the head of the list consumes (always at
least one); a generic scanner reproduces `String.prototype.replace` with
the `g` flag: scan left to right, emit the replacement at a match and
resume after it. -/

/-- JavaScript regex `\s` (the ASCII whitespace forms; the Unicode space
    forms never occur in the texts handled here). -/
def isWsChar (c : Char) : Bool :=
  c = ' ' || c = '\t' || c = '\n' || c = '\r' || c = '\x0b' || c = '\x0c'

/-- JavaScript regex `\w`. -/
def isWordChar (c : Char) : Bool :=
  c.isAlpha || c.isDigit || c = '_'

/-- The character class `[A-Za-z<>\[\]{}|&]` of the annotation regexes. -/
def isAnnoChar (c : Char) : Bool :=
  c.isAlpha || c = '<' || c = '>' || c = '[' || c = ']' || c = '\x7b' || c = '\x7d' ||
    c = '|' || c = '&'

/-- Global regex replacement: at each position try the matcher; on a match
    (consuming n ≥ 1 characters) emit `rep` and resume after the match,
    otherwise keep the character.  Fuel (the input length) bounds the
    recursion; it cannot run out because every step consumes at least one
    character. -/
def replaceScanAux (m : List Char → Option Nat) (rep : List Char) :
    Nat → List Char → List Char
  | 0, l => l
  | _ + 1, [] => []
  | fuel + 1, c :: cs =>
    match m (c :: cs) with
    | some n => rep ++ replaceScanAux m rep fuel (List.drop n (c :: cs))
    | none => c :: replaceScanAux m rep fuel cs

/-- Global replace driver (JavaScript `text.replace(regex, rep)` with `g`). -/
def replaceScan (m : List Char → Option Nat) (rep : List Char) (l : List Char) : List Char :=
  replaceScanAux m rep l.length l

/-- Matcher for `: [A-Za-z<>\[\]{}|&]+(?=\s*L)` (source lines 756-758),
    where `L` is the lookahead character set (`[,)]`, `=` or `;`).  The
    class is disjoint from whitespace and from every lookahead set, so the
    greedy `+` never profits from backtracking: only the maximal class run
    can satisfy the lookahead.  The lookahead is not consumed. -/
def matchColonAnno (look : Char → Bool) (l : List Char) : Option Nat :=
  match l with
  | ':' :: ' ' :: rest =>
    let n := (rest.takeWhile isAnnoChar).length
    if n = 0 then none
    else
      let after := rest.drop n
      let ws := (after.takeWhile isWsChar).length
      match (after.drop ws).head? with
      | some c => if look c then some (2 + n) else none
      | none => none
  | _ => none

/-- Matcher for `KW\s+\w+\s*\x7b[^\x7d]*\x7d` (interface and enum removal,
    source lines 761 and 772; `KW` is `interface` or `enum`).  Every greedy
    piece is followed by a piece its characters cannot begin, so maximal
    runs are the only match candidates; `[^\x7d]*` runs to the first
    closing brace, which must exist. -/
def matchKwBlock (kw : List Char) (l : List Char) : Option Nat :=
  if kw.isPrefixOf l then
    let r1 := l.drop kw.length
    let s1 := (r1.takeWhile isWsChar).length
    if s1 = 0 then none
    else
      let r2 := r1.drop s1
      let w1 := (r2.takeWhile isWordChar).length
      if w1 = 0 then none
      else
        let r3 := r2.drop w1
        let s2 := (r3.takeWhile isWsChar).length
        match r3.drop s2 with
        | '\x7b' :: r4 =>
          let b := (r4.takeWhile (fun c => c ≠ '\x7d')).length
          match (r4.drop b).head? with
          | some _ => some (kw.length + s1 + w1 + s2 + 1 + b + 1)
          | none => none
        | _ => none
  else none

/-- Matcher for `type\s+\w+\s*=\s*[^;]+;` (type-alias removal, source line
    762).  After the `=`, the trailing `\s*` and `[^;]+` together consume
    exactly the characters up to the first `;` (whitespace is also matched
    by `[^;]`, so JavaScript backtracking redistributes but never changes
    the total); the match needs at least one such character and the
    closing `;`. -/
def matchTypeAlias (l : List Char) : Option Nat :=
  if ("type".toList).isPrefixOf l then
    let r1 := l.drop 4
    let s1 := (r1.takeWhile isWsChar).length
    if s1 = 0 then none
    else
      let r2 := r1.drop s1
      let w1 := (r2.takeWhile isWordChar).length
      if w1 = 0 then none
      else
        let r3 := r2.drop w1
        let s2 := (r3.takeWhile isWsChar).length
        match r3.drop s2 with
        | '=' :: r4 =>
          let b := (r4.takeWhile (fun c => c ≠ ';')).length
          if b = 0 then none
          else
            match (r4.drop b).head? with
            | some _ => some (4 + s1 + w1 + s2 + 1 + b + 1)
            | none => none
        | _ => none
  else none

/-- Greedy `\s*$` in multiline mode, tried with the longest whitespace
    prefix first: returns the consumed count when the position after the
    prefix is the end of the input or a newline.  The argument is the
    prefix length to try first (all positions below it hold whitespace). -/
def wsEolFrom (l : List Char) : Nat → Option Nat
  | 0 => if l.isEmpty || l.head? = some '\n' then some 0 else none
  | j + 1 =>
    if (l.drop (j + 1)).isEmpty || (l.drop (j + 1)).head? = some '\n' then some (j + 1)
    else wsEolFrom l j

/-- Greedy `\s*$` starting from the maximal whitespace run. -/
def wsEol (l : List Char) : Option Nat :=
  wsEolFrom l (l.takeWhile isWsChar).length

/-- `;?\s*$`: the optional `;` is preferred present. -/
def semiWsEol (l : List Char) : Option Nat :=
  match l with
  | ';' :: rest =>
    match wsEol rest with
    | some j => some (1 + j)
    | none => wsEol l
  | _ => wsEol l

/-- Lazy `.*?;?\s*$`: try the shortest dot run first; `.` does not match a
    newline.  Returns the total consumed count. -/
def lazyToEol : Nat → List Char → Option Nat
  | _, [] => semiWsEol []
  | 0, l => semiWsEol l
  | fuel + 1, c :: cs =>
    match semiWsEol (c :: cs) with
    | some r => some r
    | none => if c = '\n' then none else (lazyToEol fuel cs).map (fun r => r + 1)

/-- Inner loop of the import/export-type matcher: try the trailing `\s+`
    run longest first (whitespace it releases is re-matched by the lazy
    dot run, except newlines, which `.` cannot match). -/
def kwTypeTail (base : Nat) (r3 : List Char) : Nat → Option Nat
  | 0 => none
  | s2 + 1 =>
    match lazyToEol (r3.drop (s2 + 1)).length (r3.drop (s2 + 1)) with
    | some t => some (base + (s2 + 1) + t)
    | none => kwTypeTail base r3 s2

/-- Matcher for `KW\s+type\s+.*?;?\s*$` with the g and m flags (import-
    and export-type removal, source lines 765-766; `KW` is `import` or
    `export`).  `$` matches at the end of the input or before a newline
    and is not consumed. -/
def matchKwType (kw : List Char) (l : List Char) : Option Nat :=
  if kw.isPrefixOf l then
    let r1 := l.drop kw.length
    let s1 := (r1.takeWhile isWsChar).length
    if s1 = 0 then none
    else
      let r2 := r1.drop s1
      if ("type".toList).isPrefixOf r2 then
        let r3 := r2.drop 4
        kwTypeTail (kw.length + s1 + 4) r3 (r3.takeWhile isWsChar).length
      else none
  else none

/-- Matcher for `<[^>]*>` (generic-parameter removal, source line 769). -/
def matchAngles (l : List Char) : Option Nat :=
  match l with
  | '<' :: rest =>
    let b := (rest.takeWhile (fun c => c ≠ '>')).length
    match (rest.drop b).head? with
    | some _ => some (1 + b + 1)
    | none => none
  | _ => none

/-- Greedy `\s*\n`, tried with the longest whitespace prefix first;
    returns the consumed count including the newline. -/
def wsNlFrom (l : List Char) : Nat → Option Nat
  | 0 => if l.head? = some '\n' then some 1 else none
  | j + 1 =>
    if (l.drop (j + 1)).head? = some '\n' then some (j + 2)
    else wsNlFrom l j

/-- Search for `\s*\n\s*\n` after the leading newline of the blank-line
    regex, backtracking the first `\s*` from the longest run down. -/
def tripleNlFrom (r1 : List Char) : Nat → Option Nat
  | 0 =>
    if r1.head? = some '\n' then
      let r2 := r1.drop 1
      (wsNlFrom r2 (r2.takeWhile isWsChar).length).map (fun t => 1 + t)
    else none
  | j + 1 =>
    (if (r1.drop (j + 1)).head? = some '\n' then
      let r2 := r1.drop (j + 2)
      (wsNlFrom r2 (r2.takeWhile isWsChar).length).map (fun t => j + 2 + t)
    else none) <|> tripleNlFrom r1 j

/-- Matcher for `\n\s*\n\s*\n` (blank-line collapse, source line 775).
    Both `\s*` groups can themselves contain newlines, so they are
    backtracked greedily. -/
def matchTripleNl (l : List Char) : Option Nat :=
  match l with
  | '\n' :: r1 => (tripleNlFrom r1 (r1.takeWhile isWsChar).length).map (fun t => t + 1)
  | _ => none

/-- JavaScript `String.prototype.trim`. -/
def jsTrim (l : List Char) : List Char :=
  ((l.dropWhile isWsChar).reverse.dropWhile isWsChar).reverse

/-- Embeds the body of `convertTsToJs` (src/lib/server-file-processing.ts,
    lines 745-782): the ten global regex replacements, in source order,
    followed by `trim()`.  The try block performs only string operations
    and never throws. -/
def tsToJsText (tsCode : List Char) : List Char :=
  let c1 := replaceScan (matchColonAnno (fun c => c = ',' || c = ')')) [] tsCode
  let c2 := replaceScan (matchColonAnno (fun c => c = '=')) [] c1
  let c3 := replaceScan (matchColonAnno (fun c => c = ';')) [] c2
  let c4 := replaceScan (matchKwBlock ("interface".toList)) [] c3
  let c5 := replaceScan matchTypeAlias [] c4
  let c6 := replaceScan (matchKwType ("import".toList)) [] c5
  let c7 := replaceScan (matchKwType ("export".toList)) [] c6
  let c8 := replaceScan matchAngles [] c7
  let c9 := replaceScan (matchKwBlock ("enum".toList)) [] c8
  let c10 := replaceScan matchTripleNl ("\n\n".toList) c9
  jsTrim c10

/-- Embeds `convertTsToJs` at the text level
    (`tsBuffer.toString('utf-8')` in, `Buffer.from(jsCode, 'utf-8')` out). -/
def convertTsToJs (tsCode : String) : String :=
  String.mk (tsToJsText tsCode.toList)

/-! # src/lib/server-file-processing.ts : remaining adapters -/

/-- Join lines with newlines (the template literals below are transcribed
    line by line). -/
def joinNl (ls : List (List Char)) : List Char :=
  List.intercalate ['\n'] ls

/-- Single-character global replace (`code.replace(/c/g, rep)`). -/
def replaceCharAll (c : Char) (rep : List Char) (l : List Char) : List Char :=
  l.foldr (fun x acc => (if x = c then rep else [x]) ++ acc) []

/-- The `jsCode.replace(/</g, '&lt;').replace(/>/g, '&gt;')` escaping of
    the JS-to-HTML template (source line 683). -/
def escapeAngles (code : List Char) : List Char :=
  replaceCharAll '>' ("&gt;".toList) (replaceCharAll '<' ("&lt;".toList) code)

/-- Embeds the template literal of `convertJsToHtml`
    (src/lib/server-file-processing.ts, lines 638-737), transcribed line
    by line; the two splices are the angle-escaped source and the raw
    source. -/
def jsToHtmlText (jsCode : List Char) : List Char :=
  joinNl
    [ "<!DOCTYPE html>".toList
    , "<html lang=\"en\">".toList
    , "<head>".toList
    , "    <meta charset=\"UTF-8\">".toList
    , "    <meta name=\"viewport\" content=\"width=device-width, initial-scale=1.0\">".toList
    , "    <title>JavaScript to HTML Conversion</title>".toList
    , "    <style>".toList
    , "        body \x7b".toList
    , "            font-family: Arial, sans-serif;".toList
    , "            margin: 20px;".toList
    , "            background-color: #f5f5f5;".toList
    , "        \x7d".toList
    , "        .container \x7b".toList
    , "            max-width: 800px;".toList
    , "            margin: 0 auto;".toList
    , "            background: white;".toList
    , "            padding: 20px;".toList
    , "            border-radius: 8px;".toList
    , "            box-shadow: 0 2px 10px rgba(0,0,0,0.1);".toList
    , "        \x7d".toList
    , "        .code-output \x7b".toList
    , "            background: #f8f9fa;".toList
    , "            border: 1px solid #e9ecef;".toList
    , "            border-radius: 4px;".toList
    , "            padding: 15px;".toList
    , "            margin: 20px 0;".toList
    , "            font-family: \x27Courier New\x27, monospace;".toList
    , "            white-space: pre-wrap;".toList
    , "        \x7d".toList
    , "        .console-output \x7b".toList
    , "            background: #2d3748;".toList
    , "            color: #e2e8f0;".toList
    , "            border-radius: 4px;".toList
    , "            padding: 15px;".toList
    , "            margin: 20px 0;".toList
    , "            font-family: \x27Courier New\x27, monospace;".toList
    , "        \x7d".toList
    , "    </style>".toList
    , "</head>".toList
    , "<body>".toList
    , "    <div class=\"container\">".toList
    , "        <h1>JavaScript to HTML Conversion</h1>".toList
    , "        <p>This HTML file contains the converted JavaScript code.</p>".toList
    , "        ".toList
    , "        <h2>Original JavaScript Code:</h2>".toList
    , "        <div class=\"code-output\">".toList ++ escapeAngles jsCode ++ "</div>".toList
    , "        ".toList
    , "        <h2>Console Output:</h2>".toList
    , "        <div class=\"console-output\" id=\"console-output\"></div>".toList
    , "        ".toList
    , "        <script>".toList
    , "            // Override console methods to capture output".toList
    , "            const originalConsole = \x7b".toList
    , "                log: console.log,".toList
    , "                error: console.error,".toList
    , "                warn: console.warn,".toList
    , "                info: console.info".toList
    , "            \x7d;".toList
    , "            ".toList
    , "            const consoleOutput = document.getElementById(\x27console-output\x27);".toList
    , "            ".toList
    , "            function addToConsole(type, ...args) \x7b".toList
    , "                const div = document.createElement(\x27div\x27);".toList
    , "                div.style.color = type === \x27error\x27 ? \x27#fc8181\x27 : ".toList
    , "                                type === \x27warn\x27 ? \x27#f6e05e\x27 : ".toList
    , "                                type === \x27info\x27 ? \x27#63b3ed\x27 : \x27#68d391\x27;".toList
    , "                div.textContent = `[$\x7btype.toUpperCase()\x7d] $\x7bargs.join(\x27 \x27)\x7d`;".toList
    , "                consoleOutput.appendChild(div);".toList
    , "            \x7d".toList
    , "            ".toList
    , "            console.log = (...args) => \x7b".toList
    , "                originalConsole.log(...args);".toList
    , "                addToConsole(\x27log\x27, ...args);".toList
    , "            \x7d;".toList
    , "            ".toList
    , "            console.error = (...args) => \x7b".toList
    , "                originalConsole.error(...args);".toList
    , "                addToConsole(\x27error\x27, ...args);".toList
    , "            \x7d;".toList
    , "            ".toList
    , "            console.warn = (...args) => \x7b".toList
    , "                originalConsole.warn(...args);".toList
    , "                addToConsole(\x27warn\x27, ...args);".toList
    , "            \x7d;".toList
    , "            ".toList
    , "            console.info = (...args) => \x7b".toList
    , "                originalConsole.info(...args);".toList
    , "                addToConsole(\x27info\x27, ...args);".toList
    , "            \x7d;".toList
    , "            ".toList
    , "            // Execute the JavaScript code".toList
    , "            try \x7b".toList
    , "                ".toList ++ jsCode
    , "            \x7d catch (error) \x7b".toList
    , "                console.error(\x27Execution error:\x27, error.message);".toList
    , "            \x7d".toList
    , "        </script>".toList
    , "    </div>".toList
    , "</body>".toList
    , "</html>".toList ]

/-- Embeds `convertJsToHtml` at the buffer level (lines 631-743); the try
    block performs only string work and never throws. -/
def convertJsToHtmlBytes (jsBuffer : List Nat) : List Nat :=
  (jsToHtmlText ((bytesToStr jsBuffer).toList)).map Char.toNat

/-- Embeds `convertTsToJs` at the buffer level. -/
def convertTsToJsBytes (tsBuffer : List Nat) : List Nat :=
  strToBytes (convertTsToJs (bytesToStr tsBuffer))

/-- Embeds `convertCodeFormat` (src/lib/server-file-processing.ts, lines
    784-809).  The switch dispatches on the source format; an unsupported
    source format throws from the default case, an unsupported target for
    `js` or `ts` falls through the switch to the trailing throw.  The
    catch wraps every escaping error as `Code conversion failed: ${error}`
    (a thrown `Error` interpolates as `Error: ` plus its message). -/
def convertCodeFormat (inputBuffer : List Nat) (sourceFormat targetFormat : String) :
    Except String (List Nat) :=
  let inner : Except String (List Nat) :=
    if sourceFormat = "js" then
      if targetFormat = "html" then Except.ok (convertJsToHtmlBytes inputBuffer)
      else Except.error ("Unsupported conversion: " ++ sourceFormat ++ " to " ++ targetFormat)
    else if sourceFormat = "ts" then
      if targetFormat = "js" then Except.ok (convertTsToJsBytes inputBuffer)
      else Except.error ("Unsupported conversion: " ++ sourceFormat ++ " to " ++ targetFormat)
    else Except.error ("Unsupported source format: " ++ sourceFormat)
  inner.mapError (fun e => "Code conversion failed: Error: " ++ e)

/-- Standard base64 alphabet (`Buffer.prototype.toString('base64')`). -/
def base64Char (n : Nat) : Char :=
  "ABCDEFGHIJKLMNOPQRSTUVWXYZabcdefghijklmnopqrstuvwxyz0123456789+/".toList.getD n 'A'

/-- Base64 encoding of a byte list, with `=` padding. -/
def base64Encode : List Nat → List Char
  | [] => []
  | [b1] => [base64Char (b1 / 4), base64Char (b1 % 4 * 16), '=', '=']
  | [b1, b2] =>
    [base64Char (b1 / 4), base64Char (b1 % 4 * 16 + b2 / 16), base64Char (b2 % 16 * 4), '=']
  | b1 :: b2 :: b3 :: rest =>
    base64Char (b1 / 4) :: base64Char (b1 % 4 * 16 + b2 / 16) ::
      base64Char (b2 % 16 * 4 + b3 / 64) :: base64Char (b3 % 64) :: base64Encode rest

/-- The fixed placeholder SVG emitted when every decode attempt of
    `convertIcoToSvg` fails (src/lib/server-file-processing.ts, lines
    236-248), transcribed line by line. -/
def placeholderSvg : String :=
  String.mk (joinNl
    [ "<?xml version=\"1.0\" encoding=\"UTF-8\"?>".toList
    , "<svg xmlns=\"http://www.w3.org/2000/svg\" width=\"256\" height=\"256\" viewBox=\"0 0 256 256\">".toList
    , "  <defs>".toList
    , "    <style>".toList
    , "      .icon-placeholder \x7b fill: #cccccc; \x7d".toList
    , "      .icon-text \x7b fill: #666666; font-family: Arial, sans-serif; font-size: 14px; text-anchor: middle; \x7d".toList
    , "    </style>".toList
    , "  </defs>".toList
    , "  <rect width=\"256\" height=\"256\" class=\"icon-placeholder\" rx=\"20\" ry=\"20\"/>".toList
    , "  <text x=\"128\" y=\"128\" class=\"icon-text\">ICO</text>".toList
    , "  <text x=\"128\" y=\"150\" class=\"icon-text\">File</text>".toList
    , "  <text x=\"128\" y=\"170\" class=\"icon-text\">(Conversion Failed)</text>".toList
    , "</svg>".toList ])

/-- The SVG wrapper around a successfully decoded PNG
    (src/lib/server-file-processing.ts, lines 259-267). -/
def icoSvgWrap (pngBuffer : List Nat) : String :=
  String.mk (joinNl
    [ "<?xml version=\"1.0\" encoding=\"UTF-8\"?>".toList
    , "<svg xmlns=\"http://www.w3.org/2000/svg\" xmlns:xlink=\"http://www.w3.org/1999/xlink\" width=\"256\" height=\"256\" viewBox=\"0 0 256 256\">".toList
    , "  <defs>".toList
    , "    <style>".toList
    , "      .icon-image \x7b image-rendering: pixelated; \x7d".toList
    , "    </style>".toList
    , "  </defs>".toList
    , "  <image xlink:href=\"data:image/png;base64,".toList ++ base64Encode pngBuffer ++
        "\" width=\"256\" height=\"256\" class=\"icon-image\" />".toList
    , "</svg>".toList ])

/-- Embeds `convertIcoToSvg` (src/lib/server-file-processing.ts, lines
    192-276).  The two sharp decode attempts are the parameters `d1`
    (plain `sharp(icoBuffer).png()`) and `d2`
    (`sharp(icoBuffer, ...)` with `failOnError: false` and a 256-square
    resize).  A buffer shorter than 6 bytes throws before any decode
    attempt; the ICO header check only logs a warning; when both decode
    attempts fail the fixed placeholder SVG is returned as a success.  The
    outer catch rethrows any escaping error as
    `ICO to SVG conversion failed: ${error}`. -/
def convertIcoToSvg (d1 d2 : List Nat → Except String (List Nat)) (icoBuffer : List Nat) :
    Except String (List Nat) :=
  let inner : Except String (List Nat) :=
    if icoBuffer.length < 6 then Except.error "File too small to be a valid ICO file"
    else
      match d1 icoBuffer with
      | Except.ok png => Except.ok (strToBytes (icoSvgWrap png))
      | Except.error _ =>
        match d2 icoBuffer with
        | Except.ok png => Except.ok (strToBytes (icoSvgWrap png))
        | Except.error _ => Except.ok (strToBytes placeholderSvg)
  inner.mapError (fun e => "ICO to SVG conversion failed: Error: " ++ e)

/-- Embeds `convertVideoFormat` (src/lib/server-file-processing.ts, lines
    522-543).  The whole try block (engine construction, load, write,
    exec, read) is the `ffmpeg` parameter.  On any failure the adapter
    logs a warning and returns the input buffer unchanged; it never
    propagates the failure.  The second component collects the
    `console.warn` output of the call. -/
def convertVideoFormat (ffmpeg : List Nat → String → Except String (List Nat))
    (inputBuffer : List Nat) (targetFormat : String) : List Nat × List String :=
  match ffmpeg inputBuffer targetFormat with
  | Except.ok data => (data, [])
  | Except.error e => (inputBuffer, ["Video conversion failed, returning original: " ++ e])

/-- Embeds `extractAudioFromVideo` (src/lib/server-file-processing.ts,
    lines 545-566), with the same soft-failure shape as
    `convertVideoFormat`. -/
def extractAudioFromVideo (ffmpeg : List Nat → String → Except String (List Nat))
    (videoBuffer : List Nat) (audioFormat : String) : List Nat × List String :=
  match ffmpeg videoBuffer audioFormat with
  | Except.ok data => (data, [])
  | Except.error e => (videoBuffer, ["Audio extraction failed, returning original: " ++ e])

/-- Page sizes of `convertImageToPdf`. -/
inductive PageSize where
  | A4
  | Letter
  | Legal
  deriving DecidableEq, Repr

/-- Page orientations of `convertImageToPdf`. -/
inductive PageOrientation where
  | portrait
  | landscape
  deriving DecidableEq, Repr

/-- The geometry `convertImageToPdf` computes before drawing. -/
structure PdfLayout where
  pageWidth : ℚ
  pageHeight : ℚ
  scale : ℚ
  scaledWidth : ℚ
  scaledHeight : ℚ
  x : ℚ
  y : ℚ
  deriving DecidableEq, Repr

/-- Embeds the page-geometry computation of `convertImageToPdf`
    (src/lib/server-file-processing.ts, lines 84-123): page dimensions in
    points by size (the switch default duplicates A4), swapped for
    landscape; printable area inside the margins; scale
    `Math.min(scaleX, scaleY, 1)`; scaled image size; centred position.
    The caller in the POST handler uses the defaults A4, portrait,
    margin 50. -/
def imageToPdfLayout (imgWidth imgHeight : ℚ) (pageSize : PageSize)
    (orientation : PageOrientation) (margin : ℚ) : PdfLayout :=
  let base : ℚ × ℚ :=
    match pageSize with
    | PageSize.A4 => (59528 / 100, 84189 / 100)
    | PageSize.Letter => (612, 792)
    | PageSize.Legal => (612, 1008)
  let dims : ℚ × ℚ :=
    match orientation with
    | PageOrientation.portrait => base
    | PageOrientation.landscape => (base.2, base.1)
  let pageWidth := dims.1
  let pageHeight := dims.2
  let availableWidth := pageWidth - margin * 2
  let availableHeight := pageHeight - margin * 2
  let scaleX := availableWidth / imgWidth
  let scaleY := availableHeight / imgHeight
  let scale := min (min scaleX scaleY) 1
  let scaledWidth := imgWidth * scale
  let scaledHeight := imgHeight * scale
  let x := margin + (availableWidth - scaledWidth) / 2
  let y := margin + (availableHeight - scaledHeight) / 2
  { pageWidth := pageWidth
    pageHeight := pageHeight
    scale := scale
    scaledWidth := scaledWidth
    scaledHeight := scaledHeight
    x := x
    y := y }

/-! # src/unnamed/part_000 : the POST /api/convert handler -/

/-- External engine calls made by the adapters the POST handler uses.
    Each field stands for one third-party call chain (sharp, pdf-lib,
    ffmpeg, mammoth); it returns the produced bytes (or text) or fails
    with the stringified `${error}` text of the value the call threw. -/
structure Env where
  sharpTranscode : List Nat → String → Except String (List Nat)
  sharpSvgPng : List Nat → Except String (List Nat)
  sharpSvgJpeg : List Nat → Except String (List Nat)
  sharpSvgWebp : List Nat → Except String (List Nat)
  sharpSvgIco : List Nat → Except String (List Nat)
  icoDecode1 : List Nat → Except String (List Nat)
  icoDecode2 : List Nat → Except String (List Nat)
  sharpToIco : List Nat → Except String (List Nat)
  pdfFromImage : List Nat → Except String (List Nat)
  sharpWatermark : List Nat → Except String (List Nat)
  ffmpegVideo : List Nat → String → Except String (List Nat)
  ffmpegAudio : List Nat → String → Except String (List Nat)
  mammothHtml : List Nat → Except String String
  mammothText : List Nat → Except String String

/-- Embeds `convertImageFormat` (src/lib/server-file-processing.ts, lines
    10-36): a sharp re-encode whose catch rethrows as
    `Image conversion failed: ${error}`. -/
def convertImageFormatA (env : Env) (inputBuffer : List Nat) (targetFormat : String) :
    Except String (List Nat) :=
  (env.sharpTranscode inputBuffer targetFormat).mapError
    (fun e => "Image conversion failed: " ++ e)

/-- Embeds `convertSvgToPng` (lines 278-291). -/
def convertSvgToPngA (env : Env) (svgBuffer : List Nat) : Except String (List Nat) :=
  (env.sharpSvgPng svgBuffer).mapError (fun e => "SVG to PNG conversion failed: " ++ e)

/-- Embeds `convertSvgToJpeg` (lines 293-307). -/
def convertSvgToJpegA (env : Env) (svgBuffer : List Nat) : Except String (List Nat) :=
  (env.sharpSvgJpeg svgBuffer).mapError (fun e => "SVG to JPEG conversion failed: " ++ e)

/-- Embeds `convertSvgToWebp` (lines 309-323). -/
def convertSvgToWebpA (env : Env) (svgBuffer : List Nat) : Except String (List Nat) :=
  (env.sharpSvgWebp svgBuffer).mapError (fun e => "SVG to WebP conversion failed: " ++ e)

/-- Embeds `convertSvgToIco` (lines 173-190). -/
def convertSvgToIcoA (env : Env) (svgBuffer : List Nat) : Except String (List Nat) :=
  (env.sharpSvgIco svgBuffer).mapError (fun e => "SVG to ICO conversion failed: " ++ e)

/-- Embeds `convertToIco` (lines 151-171). -/
def convertToIcoA (env : Env) (inputBuffer : List Nat) : Except String (List Nat) :=
  (env.sharpToIco inputBuffer).mapError (fun e => "ICO conversion failed: " ++ e)

/-- Embeds `convertImageToPdf` as called by the handler (lines 65-148);
    its geometry core is `imageToPdfLayout`, and the engine work (sharp
    metadata and re-encode, pdf-lib embedding) is the `pdfFromImage`
    field. -/
def convertImageToPdfA (env : Env) (imageBuffer : List Nat) : Except String (List Nat) :=
  (env.pdfFromImage imageBuffer).mapError (fun e => "Image to PDF conversion failed: " ++ e)

/-- Embeds `removeWatermark` (lines 811-846): the catch replaces the error
    with a fixed message. -/
def removeWatermarkA (env : Env) (imageBuffer : List Nat) : Except String (List Nat) :=
  (env.sharpWatermark imageBuffer).mapError
    (fun _ => "Failed to remove watermark from image")

/-- Embeds `convertDocxToHtml` (lines 569-578). -/
def convertDocxToHtmlA (env : Env) (docxBuffer : List Nat) : Except String String :=
  (env.mammothHtml docxBuffer).mapError (fun e => "DOCX to HTML conversion failed: " ++ e)

/-- Embeds `convertDocxToText` (lines 580-589). -/
def convertDocxToTextA (env : Env) (docxBuffer : List Nat) : Except String String :=
  (env.mammothText docxBuffer).mapError (fun e => "DOCX to text conversion failed: " ++ e)

/-- The uploaded file of a conversion request: its client name and its
    bytes. -/
structure ReqFile where
  name : String
  bytes : List Nat
  deriving DecidableEq, Repr

/-- Result of the handler body before it is turned into an HTTP response:
    a converted payload, a caller error the handler answers with status
    400 directly, or an error thrown to the surrounding catch. -/
inductive Outcome where
  | converted (body : List Nat) (mime : String)
  | caller (error : String) (details : Option String)
  | thrown (mssg : String)
  deriving DecidableEq, Repr

/-- An HTTP response of the handler: a binary body with a mime type and a
    `Content-Disposition` file name, or a JSON error with a status. -/
inductive ConvResponse where
  | fileRes (body : List Nat) (mime : String) (filename : String)
  | jsonError (status : Nat) (error : String) (details : Option String)
  deriving DecidableEq, Repr

/-- HTTP status of a response (a binary response is a 200). -/
def ConvResponse.status : ConvResponse → Nat
  | ConvResponse.fileRes _ _ _ => 200
  | ConvResponse.jsonError s _ _ => s

/-- Lift an adapter result into an `Outcome` (a failure becomes a thrown
    error for the handler's outer catch). -/
def toOutcome (r : Except String (List Nat)) (mime : String) : Outcome :=
  match r with
  | Except.ok body => Outcome.converted body mime
  | Except.error e => Outcome.thrown e

/-- The dispatch body of the POST handler (src/unnamed/part_000, lines
    60-222): classify by `getFileExtension`, then branch exactly as the
    if/switch chain of the source (a JavaScript `switch` on the target
    format is its sequence of equality tests, embedded as an if chain).  The icon branch initialises
    `result = Buffer.from('')` and `mimeType = 'application/octet-stream'`
    and falls through with them when the extension is neither `svg` nor
    `ico` (unreachable, since the icon set is exactly those two).  The
    ICO-to-SVG arm catches the adapter error itself and answers 400; every
    other adapter failure is thrown to the outer catch. -/
def postDispatch (env : Env) (f : ReqFile) (targetFormat : String) : Outcome :=
  let fileExtension := getFileExtension f.name
  if isValidIconFormat fileExtension then
    if fileExtension = "svg" then
      if targetFormat = "png" then toOutcome (convertSvgToPngA env f.bytes) "image/png"
      else if targetFormat = "jpeg" then toOutcome (convertSvgToJpegA env f.bytes) "image/jpeg"
      else if targetFormat = "jpg" then toOutcome (convertSvgToJpegA env f.bytes) "image/jpeg"
      else if targetFormat = "webp" then toOutcome (convertSvgToWebpA env f.bytes) "image/webp"
      else if targetFormat = "ico" then toOutcome (convertSvgToIcoA env f.bytes) "image/x-icon"
      else toOutcome (convertImageFormatA env f.bytes targetFormat) ("image/" ++ targetFormat)
    else if fileExtension = "ico" then
      if targetFormat = "png" then toOutcome (convertImageFormatA env f.bytes "png") "image/png"
      else if targetFormat = "jpeg" then toOutcome (convertImageFormatA env f.bytes "jpeg") "image/jpeg"
      else if targetFormat = "jpg" then toOutcome (convertImageFormatA env f.bytes "jpeg") "image/jpeg"
      else if targetFormat = "webp" then toOutcome (convertImageFormatA env f.bytes "webp") "image/webp"
      else if targetFormat = "svg" then
        match convertIcoToSvg env.icoDecode1 env.icoDecode2 f.bytes with
        | Except.ok r => Outcome.converted r "image/svg+xml"
        | Except.error e =>
          Outcome.caller
            "ICO to SVG conversion failed. ICO files are complex binary formats and may not be supported by all conversion tools. Try converting to PNG or JPEG instead."
            (some e)
      else Outcome.caller ("ICO conversion to " ++ targetFormat ++ " is not supported") none
    else Outcome.converted [] "application/octet-stream"
  else if isValidImageFormat fileExtension then
    if targetFormat = "watermark-removed" then
      toOutcome (removeWatermarkA env f.bytes) "image/png"
    else if targetFormat = "ico" then
      toOutcome (convertToIcoA env f.bytes) "image/x-icon"
    else if targetFormat = "pdf" then
      toOutcome (convertImageToPdfA env f.bytes) "application/pdf"
    else
      toOutcome (convertImageFormatA env f.bytes targetFormat) ("image/" ++ targetFormat)
  else if isValidVideoFormat fileExtension then
    if ["mp3", "wav", "aac"].contains targetFormat then
      Outcome.converted (extractAudioFromVideo env.ffmpegAudio f.bytes targetFormat).1
        ("audio/" ++ targetFormat)
    else
      Outcome.converted (convertVideoFormat env.ffmpegVideo f.bytes targetFormat).1
        ("video/" ++ targetFormat)
  else if isValidDocumentFormat fileExtension then
    let lowerName := String.mk (lowerStr f.name.toList)
    if endsWithSeg (".docx".toList) lowerName.toList then
      if targetFormat = "html" then
        match convertDocxToHtmlA env f.bytes with
        | Except.ok text => Outcome.converted (strToBytes text) "text/html"
        | Except.error e => Outcome.thrown e
      else
        match convertDocxToTextA env f.bytes with
        | Except.ok text => Outcome.converted (strToBytes text) "text/plain"
        | Except.error e => Outcome.thrown e
    else if endsWithSeg (".txt".toList) lowerName.toList then
      let textContent := bytesToStr f.bytes
      if targetFormat = "html" then
        let htmlContent :=
          List.flatten ((splitOnChar '\n' textContent.toList).map
            (fun line => "<p>".toList ++ line ++ "</p>".toList))
        Outcome.converted
          (("<html><body>".toList ++ htmlContent ++ "</body></html>".toList).map Char.toNat)
          "text/html"
      else Outcome.converted f.bytes "text/plain"
    else if endsWithSeg (".pdf".toList) lowerName.toList then
      if targetFormat = "txt" then
        Outcome.converted (strToBytes "PDF text extraction would be implemented here") "text/plain"
      else if targetFormat = "html" then
        Outcome.converted
          (strToBytes "<html><body><p>PDF to HTML conversion would be implemented here</p></body></html>")
          "text/html"
      else Outcome.caller "PDF conversion to this format is not supported" none
    else
      Outcome.caller
        ("Document conversion not supported for " ++ fileExtension ++
          " files. Supported formats: .docx, .txt, .pdf") none
  else if isValidCodeFormat fileExtension then
    match convertCodeFormat f.bytes fileExtension targetFormat with
    | Except.error e => Outcome.thrown e
    | Except.ok r =>
      let mime :=
        if targetFormat = "html" then "text/html"
        else if targetFormat = "js" then "application/javascript"
        else if targetFormat = "ts" then "application/typescript"
        else if targetFormat = "txt" then "text/plain"
        else "text/plain"
      Outcome.converted r mime
  else Outcome.caller "Unsupported file type" none

/-- Embeds the POST handler of src/unnamed/part_000 (lines 33-296).  A
    missing file or a missing/empty target format (both falsy in the
    source) answer 400 before any work.  A dispatch outcome becomes the
    response: converted bytes are streamed with status 200 and a
    `Content-Disposition` name built from `file.name.split('.')[0]`; a
    caller error is a 400 JSON body; a thrown error is caught by the outer
    catch and answered as a 500 `Conversion failed` JSON body whose
    `details` field carries the error message.  The fire-and-forget
    analytics fetch is wrapped in its own try/catch and cannot change the
    response, so it is not part of the response model. -/
def POST (env : Env) (file? : Option ReqFile) (targetFormat? : Option String) : ConvResponse :=
  match file? with
  | none => ConvResponse.jsonError 400 "No file provided" none
  | some f =>
    match targetFormat? with
    | none => ConvResponse.jsonError 400 "No target format specified" none
    | some targetFormat =>
      if targetFormat = "" then ConvResponse.jsonError 400 "No target format specified" none
      else
        match postDispatch env f targetFormat with
        | Outcome.converted body mime =>
          ConvResponse.fileRes body mime
            (String.mk (firstSeg f.name.toList) ++ "." ++ targetFormat)
        | Outcome.caller e details => ConvResponse.jsonError 400 e details
        | Outcome.thrown mssg => ConvResponse.jsonError 500 "Conversion failed" (some mssg)

/-- Environment whose engine calls all succeed with an empty buffer; used
    to evaluate handler paths that never consult the engines. -/
def stubEnv : Env :=
  { sharpTranscode := fun _ _ => Except.ok []
    sharpSvgPng := fun _ => Except.ok []
    sharpSvgJpeg := fun _ => Except.ok []
    sharpSvgWebp := fun _ => Except.ok []
    sharpSvgIco := fun _ => Except.ok []
    icoDecode1 := fun _ => Except.ok []
    icoDecode2 := fun _ => Except.ok []
    sharpToIco := fun _ => Except.ok []
    pdfFromImage := fun _ => Except.ok []
    sharpWatermark := fun _ => Except.ok []
    ffmpegVideo := fun _ _ => Except.ok []
    ffmpegAudio := fun _ _ => Except.ok []
    mammothHtml := fun _ => Except.ok ""
    mammothText := fun _ => Except.ok "" }

/-- Environment whose engine calls all fail; used to evaluate the
    soft-failure paths. -/
def failEnv : Env :=
  { sharpTranscode := fun _ _ => Except.error "engine failure"
    sharpSvgPng := fun _ => Except.error "engine failure"
    sharpSvgJpeg := fun _ => Except.error "engine failure"
    sharpSvgWebp := fun _ => Except.error "engine failure"
    sharpSvgIco := fun _ => Except.error "engine failure"
    icoDecode1 := fun _ => Except.error "engine failure"
    icoDecode2 := fun _ => Except.error "engine failure"
    sharpToIco := fun _ => Except.error "engine failure"
    pdfFromImage := fun _ => Except.error "engine failure"
    sharpWatermark := fun _ => Except.error "engine failure"
    ffmpegVideo := fun _ _ => Except.error "engine failure"
    ffmpegAudio := fun _ _ => Except.error "engine failure"
    mammothHtml := fun _ => Except.error "engine failure"
    mammothText := fun _ => Except.error "engine failure" }

/-! # Supporting lemmas for the claims -/

theorem code_not_other (e : String) (h : isValidCodeFormat e = true) :
    isValidIconFormat e = false ∧ isValidImageFormat e = false
      ∧ isValidVideoFormat e = false ∧ isValidDocumentFormat e = false := by
  unfold isValidCodeFormat at h
  have hm : e ∈ ["js", "ts", "jsx", "tsx", "html", "css", "json", "xml", "yaml", "yml"] :=
    List.mem_of_elem_eq_true h
  simp only [List.mem_cons, List.not_mem_nil, or_false] at hm
  rcases hm with h | h | h | h | h | h | h | h | h | h <;> subst h <;>
    exact ⟨rfl, rfl, rfl, rfl⟩

theorem doc_not_other (e : String) (h : isValidDocumentFormat e = true) :
    isValidIconFormat e = false ∧ isValidImageFormat e = false
      ∧ isValidVideoFormat e = false := by
  unfold isValidDocumentFormat at h
  have hm : e ∈ ["pdf", "docx", "doc", "rtf", "txt"] := List.mem_of_elem_eq_true h
  simp only [List.mem_cons, List.not_mem_nil, or_false] at hm
  rcases hm with h | h | h | h | h <;> subst h <;> exact ⟨rfl, rfl, rfl⟩

theorem classify_unknown_elim (name : String) (h : classify name = FileKind.unknown) :
    isValidIconFormat (getFileExtension name) = false
    ∧ isValidImageFormat (getFileExtension name) = false
    ∧ isValidVideoFormat (getFileExtension name) = false
    ∧ isValidDocumentFormat (getFileExtension name) = false
    ∧ isValidCodeFormat (getFileExtension name) = false := by
  unfold classify classifyExt at h
  split_ifs at h with h1 h2 h3 h4 h5
  simp only [Bool.not_eq_true] at h1 h2 h3 h4 h5
  exact ⟨h1, h2, h3, h4, h5⟩

/-- Error text of `convertCodeFormat` for an unsupported combination. -/
def codeFailDetails (ext targetFormat : String) : String :=
  "Code conversion failed: Error: " ++
    (if ext = "js" then "Unsupported conversion: js to " ++ targetFormat
     else if ext = "ts" then "Unsupported conversion: ts to " ++ targetFormat
     else "Unsupported source format: " ++ ext)

theorem convertCodeFormat_unsupported (buf : List Nat) (ext targetFormat : String)
    (hjs : ¬(ext = "js" ∧ targetFormat = "html"))
    (hts : ¬(ext = "ts" ∧ targetFormat = "js")) :
    convertCodeFormat buf ext targetFormat
      = Except.error (codeFailDetails ext targetFormat) := by
  unfold convertCodeFormat codeFailDetails
  by_cases h1 : ext = "js"
  · subst h1
    have h2 : targetFormat ≠ "html" := fun he => hjs ⟨rfl, he⟩
    rw [if_pos rfl, if_pos rfl, if_neg h2]
    rfl
  · by_cases h3 : ext = "ts"
    · subst h3
      have h4 : targetFormat ≠ "js" := fun he => hts ⟨rfl, he⟩
      rw [if_neg h1, if_neg h1, if_pos rfl, if_pos rfl, if_neg h4]
      rfl
    · rw [if_neg h1, if_neg h1, if_neg h3, if_neg h3]
      rfl

theorem record1_length (e : ConversionAnalytics) (d : List ConversionAnalytics) :
    (record1 e d).length = min (d.length + 1) 1000 := by
  simp only [record1]
  split
  · rename_i h
    simp only [List.length_drop, List.length_append, List.length_cons, List.length_nil,
      gt_iff_lt] at h ⊢
    omega
  · rename_i h
    simp only [List.length_append, List.length_cons, List.length_nil, gt_iff_lt, not_lt] at h ⊢
    omega

theorem record1_eq_drop (e : ConversionAnalytics) (d : List ConversionAnalytics) :
    record1 e d = (d ++ [e]).drop (d.length + 1 - 1000) := by
  simp only [record1]
  have hlen : (d ++ [e]).length = d.length + 1 := by simp
  rw [hlen]
  split
  · rfl
  · rename_i h
    simp only [gt_iff_lt, not_lt] at h
    have hz : d.length + 1 - 1000 = 0 := by omega
    rw [hz, List.drop_zero]

/-- The analytics store after recording a list of events in order,
    starting from an empty store. -/
def foldRecord (evs : List ConversionAnalytics) : List ConversionAnalytics :=
  evs.foldl (fun acc e => record1 e acc) []

set_option maxRecDepth 4000 in
theorem foldl_record1_eq (evs : List ConversionAnalytics) :
    ∀ d : List ConversionAnalytics, d.length ≤ 1000 →
      evs.foldl (fun acc e => record1 e acc) d
        = (d ++ evs).drop (d.length + evs.length - 1000) := by
  induction evs with
  | nil =>
    intro d hd
    simp only [List.foldl_nil, List.append_nil, List.length_nil]
    have hz : d.length + 0 - 1000 = 0 := by omega
    rw [hz, List.drop_zero]
  | cons e rest ih =>
    intro d hd
    have hlen : (record1 e d).length ≤ 1000 := by
      rw [record1_length]
      omega
    have hk : d.length + 1 - 1000 ≤ (d ++ [e]).length := by
      simp [List.length_append]
      omega
    simp only [List.foldl_cons]
    rw [ih (record1 e d) hlen]
    rw [record1_eq_drop]
    rw [← List.drop_append_of_le_length hk]
    rw [List.drop_drop]
    have hassoc : (d ++ [e]) ++ rest = d ++ e :: rest := by simp
    rw [hassoc]
    have hidx : (d.length + 1 - 1000)
          + (((d ++ [e]).drop (d.length + 1 - 1000)).length + rest.length - 1000)
        = d.length + (e :: rest).length - 1000 := by
      simp only [List.length_drop, List.length_append, List.length_cons, List.length_nil]
      omega
    rw [hidx]

theorem mul_min_div_le_left (w a b : ℚ) (hw : 0 < w) :
    w * min (min (a / w) b) 1 ≤ a := by
  have h1 : min (min (a / w) b) 1 ≤ a / w :=
    le_trans (min_le_left _ _) (min_le_left _ _)
  calc w * min (min (a / w) b) 1 ≤ w * (a / w) :=
        mul_le_mul_of_nonneg_left h1 hw.le
    _ = a := by field_simp

theorem mul_min_div_le_right (h a b : ℚ) (hh : 0 < h) :
    h * min (min b (a / h)) 1 ≤ a := by
  have h1 : min (min b (a / h)) 1 ≤ a / h :=
    le_trans (min_le_left _ _) (min_le_right _ _)
  calc h * min (min b (a / h)) 1 ≤ h * (a / h) :=
        mul_le_mul_of_nonneg_left h1 hh.le
    _ = a := by field_simp

/-! # Claim theorems -/

/-- C8: classification is case-insensitive in the extension: two file
    names that agree after JavaScript lower-casing (in particular the same
    name with the letter case of its extension changed, such as photo.SVG
    versus photo.svg) classify to the same FileKind, because
    `getFileExtension` lower-cases the segment after the last dot. -/
theorem classify_case_insensitive (s1 s2 : String)
    (h : s1.toList.map lowerChar = s2.toList.map lowerChar) :
    classify s1 = classify s2 := by
  obtain ⟨l1⟩ := s1
  obtain ⟨l2⟩ := s2
  have h12 : l1.map lowerChar = l2.map lowerChar := h
  have h1 := getFileExtension_lower l1
  have h2 := getFileExtension_lower l2
  unfold classify
  rw [← h1, ← h2, h12]

/-- Witness for C8 at the file names of the claim. -/
theorem classify_case_insensitive_witness :
    "photo.SVG".toList.map lowerChar = "photo.svg".toList.map lowerChar
    ∧ classify "photo.SVG" = classify "photo.svg" :=
  ⟨by decide, classify_case_insensitive _ _ (by decide)⟩

/-- C2: when the media engine call inside the video-transcode adapter
    fails, the adapter returns the original input bytes exactly and logs a
    warning instead of propagating the failure (and the audio-extraction
    adapter behaves the same way); the adapters are total, so no failure
    ever reaches the caller. -/
theorem video_adapter_soft_failure
    (ffv ffa : List Nat → String → Except String (List Nat))
    (inputBuffer videoBuffer : List Nat) (targetFormat audioFormat : String)
    (e1 e2 : String)
    (h1 : ffv inputBuffer targetFormat = Except.error e1)
    (h2 : ffa videoBuffer audioFormat = Except.error e2) :
    convertVideoFormat ffv inputBuffer targetFormat
      = (inputBuffer, ["Video conversion failed, returning original: " ++ e1])
    ∧ extractAudioFromVideo ffa videoBuffer audioFormat
      = (videoBuffer, ["Audio extraction failed, returning original: " ++ e2]) := by
  unfold convertVideoFormat extractAudioFromVideo
  rw [h1, h2]
  exact ⟨rfl, rfl⟩

/-- An always-failing media engine, used as the C2 witness environment. -/
def failFfmpeg : List Nat → String → Except String (List Nat) :=
  fun _ _ => Except.error "boom"

/-- Witness for C2 at a concrete buffer and failing engine. -/
theorem video_adapter_soft_failure_witness :
    failFfmpeg [1, 2, 3] "webm" = Except.error "boom"
    ∧ failFfmpeg [4, 5] "mp3" = Except.error "boom"
    ∧ (convertVideoFormat failFfmpeg [1, 2, 3] "webm"
        = ([1, 2, 3], ["Video conversion failed, returning original: " ++ "boom"])
      ∧ extractAudioFromVideo failFfmpeg [4, 5] "mp3"
        = ([4, 5], ["Audio extraction failed, returning original: " ++ "boom"])) :=
  ⟨rfl, rfl,
    video_adapter_soft_failure failFfmpeg failFfmpeg [1, 2, 3] [4, 5] "webm" "mp3"
      "boom" "boom" rfl rfl⟩

/-- C3: the analytics store is a bounded FIFO log of capacity 1000:
    recording any 1001 events into an empty store leaves exactly the last
    1000 of them, the first (oldest) event being the one discarded;
    every `trackConversion` call returns the generated id; and after any
    record step the store holds at most 1000 events. -/
theorem analytics_bounded_fifo (evs : List ConversionAnalytics)
    (h : evs.length = 1001) :
    (foldRecord evs).length = 1000
    ∧ foldRecord evs = evs.drop 1
    ∧ (∀ (a : AnalyticsInput) (ident : String) (ts : Int)
        (d : List ConversionAnalytics), (trackConversion a ident ts d).1 = ident)
    ∧ (∀ (e : ConversionAnalytics) (d : List ConversionAnalytics),
        (record1 e d).length ≤ 1000) := by
  have hmain := foldl_record1_eq evs [] (by simp)
  simp only [List.nil_append, List.length_nil, Nat.zero_add] at hmain
  have heq : foldRecord evs = evs.drop 1 := by
    unfold foldRecord
    rw [hmain, h]
  refine ⟨?_, heq, ?_, ?_⟩
  · rw [heq]
    simp [h]
  · intro a ident ts d
    rfl
  · intro e d
    rw [record1_length]
    omega

/-- A concrete analytics event used by the C3 witness. -/
def sampleEvent : ConversionAnalytics :=
  { id := "evt0"
    fileName := "a.png"
    originalFormat := "png"
    targetFormat := "webp"
    fileSize := 10
    processingTime := 5
    success := true
    errorMessage := none
    timestamp := 0 }

/-- Witness for C3 at a concrete list of 1001 events. -/
theorem analytics_bounded_fifo_witness :
    (List.replicate 1001 sampleEvent).length = 1001
    ∧ (foldRecord (List.replicate 1001 sampleEvent)).length = 1000
    ∧ foldRecord (List.replicate 1001 sampleEvent)
        = (List.replicate 1001 sampleEvent).drop 1 :=
  ⟨by rw [List.length_replicate], (analytics_bounded_fifo _ (by rw [List.length_replicate])).1,
    (analytics_bounded_fifo _ (by rw [List.length_replicate])).2.1⟩

/-- C7: the day-range summary is computed exclusively from the events
    whose timestamp is at least 24 hours before the call time: membership
    in the filtered data is exactly the 24-hour window condition, the
    whole day summary equals the unfiltered summary of the filtered data
    (so every statistic depends only on it), and any event timestamped 25
    hours (90000000 ms) or more before the call is excluded. -/
theorem summary_day_window (now : Int) (analyticsData : List ConversionAnalytics)
    (e : ConversionAnalytics) (h : e.timestamp ≤ now - 90000000) :
    (∀ x : ConversionAnalytics,
      x ∈ filteredOf TimeRange.day now analyticsData
        ↔ x ∈ analyticsData ∧ now - 24 * 60 * 60 * 1000 ≤ x.timestamp)
    ∧ getAnalyticsSummary TimeRange.day now analyticsData
        = getAnalyticsSummary TimeRange.all now (filteredOf TimeRange.day now analyticsData)
    ∧ e ∉ filteredOf TimeRange.day now analyticsData := by
  refine ⟨?_, rfl, ?_⟩
  · intro x
    simp [filteredOf, List.mem_filter]
  · intro hmem
    have hts := (List.mem_filter.mp hmem).2
    simp only [decide_eq_true_eq] at hts
    omega

/-- A concrete event 25 hours old at call time 0, used by the C7 witness. -/
def oldEvent : ConversionAnalytics :=
  { id := "old"
    fileName := "b.mp4"
    originalFormat := "mp4"
    targetFormat := "mp3"
    fileSize := 7
    processingTime := 3
    success := false
    errorMessage := some "engine failure"
    timestamp := -90000000 }

/-- Witness for C7: the 25-hour-old event is excluded at call time 0. -/
theorem summary_day_window_witness :
    oldEvent.timestamp ≤ 0 - 90000000
    ∧ oldEvent ∉ filteredOf TimeRange.day 0 [oldEvent] :=
  ⟨by decide, (summary_day_window 0 [oldEvent] oldEvent (by decide)).2.2⟩

/-- C9: the TypeScript-to-JavaScript adapter maps
    `const x: number = 5;` to `const x = 5;`: the annotation regex with
    the `=` lookahead strips `: number` and every other replacement leaves
    the text unchanged, both at the text level and at the buffer level. -/
theorem ts_to_js_strips_annotation :
    convertTsToJs "const x: number = 5;" = "const x = 5;"
    ∧ convertTsToJsBytes (strToBytes "const x: number = 5;")
        = strToBytes "const x = 5;" :=
  ⟨by decide, by decide⟩

/-- C10: when the selected time range leaves no event (in particular when
    the store is empty), the summary reports successRate 0 and
    averageProcessingTime 0: both divisions are guarded by the
    `totalConversions > 0` check. -/
theorem summary_empty_guard (timeRange : TimeRange) (now : Int)
    (analyticsData : List ConversionAnalytics)
    (h : filteredOf timeRange now analyticsData = []) :
    (getAnalyticsSummary timeRange now analyticsData).successRate = 0
    ∧ (getAnalyticsSummary timeRange now analyticsData).averageProcessingTime = 0 := by
  unfold getAnalyticsSummary
  rw [h]
  exact ⟨rfl, rfl⟩

/-- Witness for C10 at the empty store. -/
theorem summary_empty_guard_witness :
    filteredOf TimeRange.all 0 ([] : List ConversionAnalytics) = []
    ∧ (getAnalyticsSummary TimeRange.all 0 []).successRate = 0
    ∧ (getAnalyticsSummary TimeRange.all 0 []).averageProcessingTime = 0 :=
  ⟨rfl, (summary_empty_guard TimeRange.all 0 [] rfl).1,
    (summary_empty_guard TimeRange.all 0 [] rfl).2⟩

/-- C1 (counterexample): an unsupported source-code pair does not produce
    a 400 response: for a `.ts` file with target `html` the code adapter
    throws, the outer catch answers HTTP 500 `Conversion failed`, and only
    the `details` field names the rejected pair. -/
theorem post_code_unsupported_counterexample :
    POST stubEnv (some ⟨"a.ts", []⟩) (some "html")
      = ConvResponse.jsonError 500 "Conversion failed"
          (some "Code conversion failed: Error: Unsupported conversion: ts to html")
    ∧ (POST stubEnv (some ⟨"a.ts", []⟩) (some "html")).status = 500 :=
  ⟨by decide, by decide⟩

/-- C1 (amended): responses to unsupported (kind, sourceExt, targetFormat)
    triples, with a non-empty target format (an empty target is rejected
    earlier as missing): a classified source-code file whose pair is not
    js→html and not ts→js is answered HTTP 500 `Conversion failed`, the
    details naming the unsupported conversion (the pair for js and ts
    sources, the source format alone otherwise) — not 400; an unknown file
    kind is answered 400 with the fixed body `Unsupported file type`
    (naming no combination); an `.ico` source with a target outside
    png/jpeg/jpg/webp/svg is answered 400 naming the rejected target; a
    document extension whose name ends in none of .docx/.txt/.pdf is
    answered 400 naming the source extension; a `.pdf` source with a
    target other than txt/html is answered 400 with a fixed body. -/
theorem post_unsupported_triples :
    (∀ (env : Env) (f : ReqFile) (targetFormat : String),
      isValidCodeFormat (getFileExtension f.name) = true →
      targetFormat ≠ "" →
      ¬(getFileExtension f.name = "js" ∧ targetFormat = "html") →
      ¬(getFileExtension f.name = "ts" ∧ targetFormat = "js") →
      POST env (some f) (some targetFormat)
        = ConvResponse.jsonError 500 "Conversion failed"
            (some (codeFailDetails (getFileExtension f.name) targetFormat)))
    ∧ (∀ (env : Env) (f : ReqFile) (targetFormat : String),
      targetFormat ≠ "" →
      classify f.name = FileKind.unknown →
      POST env (some f) (some targetFormat)
        = ConvResponse.jsonError 400 "Unsupported file type" none)
    ∧ (∀ (env : Env) (f : ReqFile) (targetFormat : String),
      targetFormat ≠ "" →
      getFileExtension f.name = "ico" →
      targetFormat ∉ (["png", "jpeg", "jpg", "webp", "svg"] : List String) →
      POST env (some f) (some targetFormat)
        = ConvResponse.jsonError 400
            ("ICO conversion to " ++ targetFormat ++ " is not supported") none)
    ∧ (∀ (env : Env) (f : ReqFile) (targetFormat : String),
      targetFormat ≠ "" →
      isValidDocumentFormat (getFileExtension f.name) = true →
      endsWithSeg (".docx".toList) (lowerStr f.name.toList) = false →
      endsWithSeg (".txt".toList) (lowerStr f.name.toList) = false →
      endsWithSeg (".pdf".toList) (lowerStr f.name.toList) = false →
      POST env (some f) (some targetFormat)
        = ConvResponse.jsonError 400
            ("Document conversion not supported for " ++ getFileExtension f.name
              ++ " files. Supported formats: .docx, .txt, .pdf") none)
    ∧ (∀ (env : Env) (f : ReqFile) (targetFormat : String),
      targetFormat ≠ "" →
      isValidDocumentFormat (getFileExtension f.name) = true →
      endsWithSeg (".docx".toList) (lowerStr f.name.toList) = false →
      endsWithSeg (".txt".toList) (lowerStr f.name.toList) = false →
      endsWithSeg (".pdf".toList) (lowerStr f.name.toList) = true →
      targetFormat ≠ "txt" →
      targetFormat ≠ "html" →
      POST env (some f) (some targetFormat)
        = ConvResponse.jsonError 400 "PDF conversion to this format is not supported" none) := by
  refine ⟨?_, ?_, ?_, ?_, ?_⟩
  · intro env f targetFormat hcode htf hjs hts
    obtain ⟨hic, him, hvid, hdoc⟩ := code_not_other _ hcode
    have hdisp : postDispatch env f targetFormat
        = Outcome.thrown (codeFailDetails (getFileExtension f.name) targetFormat) := by
      unfold postDispatch
      simp only [hic, him, hvid, hdoc, hcode, Bool.false_eq_true, eq_self_iff_true,
        if_false, if_true]
      rw [convertCodeFormat_unsupported f.bytes (getFileExtension f.name) targetFormat hjs hts]
    unfold POST
    dsimp only
    rw [if_neg htf, hdisp]
  · intro env f targetFormat htf hcl
    obtain ⟨hic, him, hvid, hdoc, hcode⟩ := classify_unknown_elim f.name hcl
    have hdisp : postDispatch env f targetFormat
        = Outcome.caller "Unsupported file type" none := by
      unfold postDispatch
      simp only [hic, him, hvid, hdoc, hcode, Bool.false_eq_true, if_false]
    unfold POST
    dsimp only
    rw [if_neg htf, hdisp]
  · intro env f targetFormat htf hext hmem
    simp only [List.mem_cons, List.not_mem_nil, or_false, not_or] at hmem
    obtain ⟨hp, hj, hjp, hw, hs⟩ := hmem
    have hdisp : postDispatch env f targetFormat
        = Outcome.caller ("ICO conversion to " ++ targetFormat ++ " is not supported") none := by
      unfold postDispatch
      rw [hext]
      rw [if_pos (show isValidIconFormat "ico" = true from rfl),
        if_neg (show ¬("ico" : String) = "svg" by decide),
        if_pos (show ("ico" : String) = "ico" from rfl),
        if_neg hp, if_neg hj, if_neg hjp, if_neg hw, if_neg hs]
    unfold POST
    dsimp only
    rw [if_neg htf, hdisp]
  · intro env f targetFormat htf hdocv hnd hnt hnp
    obtain ⟨hic, him, hvid⟩ := doc_not_other _ hdocv
    have hdisp : postDispatch env f targetFormat
        = Outcome.caller ("Document conversion not supported for " ++ getFileExtension f.name
            ++ " files. Supported formats: .docx, .txt, .pdf") none := by
      unfold postDispatch
      simp only [String.toList] at hnd hnt hnp
      simp only [hic, him, hvid, hdocv, Bool.false_eq_true, eq_self_iff_true, if_false, if_true,
        String.toList, hnd, hnt, hnp]
    unfold POST
    dsimp only
    rw [if_neg htf, hdisp]
  · intro env f targetFormat htf hdocv hnd hnt hpdf htxt hhtml
    obtain ⟨hic, him, hvid⟩ := doc_not_other _ hdocv
    have hdisp : postDispatch env f targetFormat
        = Outcome.caller "PDF conversion to this format is not supported" none := by
      unfold postDispatch
      simp only [String.toList] at hnd hnt hpdf
      simp only [hic, him, hvid, hdocv, Bool.false_eq_true, eq_self_iff_true, if_false, if_true,
        String.toList, hnd, hnt, hpdf]
      rw [if_neg htxt, if_neg hhtml]
    unfold POST
    dsimp only
    rw [if_neg htf, hdisp]

/-- Witness for the amended C1: one concrete instance of each family. -/
theorem post_unsupported_triples_witness :
    isValidCodeFormat (getFileExtension "a.ts") = true
    ∧ POST stubEnv (some ⟨"a.ts", []⟩) (some "html")
        = ConvResponse.jsonError 500 "Conversion failed"
            (some (codeFailDetails (getFileExtension "a.ts") "html"))
    ∧ classify "a.xyz" = FileKind.unknown
    ∧ POST stubEnv (some ⟨"a.xyz", []⟩) (some "png")
        = ConvResponse.jsonError 400 "Unsupported file type" none
    ∧ POST stubEnv (some ⟨"f.ico", []⟩) (some "pdf")
        = ConvResponse.jsonError 400
            ("ICO conversion to " ++ "pdf" ++ " is not supported") none
    ∧ POST stubEnv (some ⟨"r.rtf", []⟩) (some "txt")
        = ConvResponse.jsonError 400
            ("Document conversion not supported for " ++ getFileExtension "r.rtf"
              ++ " files. Supported formats: .docx, .txt, .pdf") none
    ∧ POST stubEnv (some ⟨"d.pdf", []⟩) (some "docx")
        = ConvResponse.jsonError 400 "PDF conversion to this format is not supported" none :=
  ⟨by decide,
    post_unsupported_triples.1 stubEnv ⟨"a.ts", []⟩ "html" (by decide) (by decide) (by decide)
      (by decide),
    by decide,
    post_unsupported_triples.2.1 stubEnv ⟨"a.xyz", []⟩ "png" (by decide) (by decide),
    post_unsupported_triples.2.2.1 stubEnv ⟨"f.ico", []⟩ "pdf" (by decide) (by decide)
      (by decide),
    post_unsupported_triples.2.2.2.1 stubEnv ⟨"r.rtf", []⟩ "txt" (by decide) (by decide)
      (by decide) (by decide) (by decide),
    post_unsupported_triples.2.2.2.2 stubEnv ⟨"d.pdf", []⟩ "docx" (by decide) (by decide)
      (by decide) (by decide) (by decide) (by decide) (by decide)⟩

/-- C4 (counterexample): a file name containing no dot is not classified
    Unknown in general: for the name `png` the extension is the whole
    name, the classifier yields Image, and the handler does not reject
    the request as an unsupported file type. -/
theorem classify_dotless_counterexample :
    '.' ∉ "png".toList
    ∧ classify "png" = FileKind.image
    ∧ classify "png" ≠ FileKind.unknown
    ∧ (POST stubEnv (some ⟨"png", []⟩) (some "webp")).status = 200 :=
  ⟨by decide, by decide, by decide, by decide⟩

/-- C4 (amended): the classifier is a pure function of the lower-cased
    segment after the last dot of the name; for a name with no dot that
    segment is the whole lower-cased name, and such a name is classified
    Unknown (and then rejected) exactly when the lower-cased name is not
    itself one of the recognised extensions. -/
theorem classify_dotless_amended (name : String) (h : '.' ∉ name.toList) :
    getFileExtension name = String.mk (lowerStr name.toList)
    ∧ (classify name = FileKind.unknown ↔
        (isValidIconFormat (getFileExtension name) = false
         ∧ isValidImageFormat (getFileExtension name) = false
         ∧ isValidVideoFormat (getFileExtension name) = false
         ∧ isValidDocumentFormat (getFileExtension name) = false
         ∧ isValidCodeFormat (getFileExtension name) = false)) := by
  have hsplit : splitOnChar '.' name.toList = [name.toList] :=
    splitOnChar_no_sep '.' name.toList h
  have hext : getFileExtension name = String.mk (lowerStr name.toList) := by
    unfold getFileExtension
    rw [hsplit]
    rfl
  refine ⟨hext, ?_⟩
  unfold classify classifyExt
  split_ifs with h1 h2 h3 h4 h5 <;> simp_all

/-- Witness for the amended C4 at the dotless name `photo`. -/
theorem classify_dotless_amended_witness :
    '.' ∉ "photo".toList
    ∧ getFileExtension "photo" = String.mk (lowerStr "photo".toList)
    ∧ classify "photo" = FileKind.unknown :=
  ⟨by decide, (classify_dotless_amended "photo" (by decide)).1,
    ((classify_dotless_amended "photo" (by decide)).2).mpr (by decide)⟩

set_option maxRecDepth 8000 in
/-- C5 (counterexample): a 3-byte buffer cannot be decoded by any decode
    attempt (the environment here fails every decode), yet ICO→SVG does
    not answer 200 with the placeholder: the length guard throws
    `File too small to be a valid ICO file` before any decode attempt and
    the handler answers 400. -/
theorem ico_to_svg_short_buffer_counterexample :
    failEnv.icoDecode1 [0, 0, 0] = Except.error "engine failure"
    ∧ failEnv.icoDecode2 [0, 0, 0] = Except.error "engine failure"
    ∧ POST failEnv (some ⟨"f.ico", [0, 0, 0]⟩) (some "svg")
        = ConvResponse.jsonError 400
            "ICO to SVG conversion failed. ICO files are complex binary formats and may not be supported by all conversion tools. Try converting to PNG or JPEG instead."
            (some "ICO to SVG conversion failed: Error: File too small to be a valid ICO file")
    ∧ (POST failEnv (some ⟨"f.ico", [0, 0, 0]⟩) (some "svg")).status ≠ 200 :=
  ⟨rfl, rfl, by decide, by decide⟩

set_option maxRecDepth 8000 in
/-- C5 (amended): for every uploaded `.ico` buffer of length at least 6
    whose two decode attempts both fail, the handler returns HTTP 200
    whose body is the fixed placeholder SVG, which contains the literal
    marker `Conversion Failed`; shorter buffers instead throw and are
    answered with status 400. -/
theorem ico_to_svg_placeholder (env : Env) (f : ReqFile) (e1 e2 : String)
    (hext : getFileExtension f.name = "ico")
    (hlen : 6 ≤ f.bytes.length)
    (h1 : env.icoDecode1 f.bytes = Except.error e1)
    (h2 : env.icoDecode2 f.bytes = Except.error e2) :
    POST env (some f) (some "svg")
      = ConvResponse.fileRes (strToBytes placeholderSvg) "image/svg+xml"
          (String.mk (firstSeg f.name.toList) ++ "." ++ "svg")
    ∧ (POST env (some f) (some "svg")).status = 200
    ∧ containsSub ("Conversion Failed".toList) placeholderSvg.toList = true := by
  have hconv : convertIcoToSvg env.icoDecode1 env.icoDecode2 f.bytes
      = Except.ok (strToBytes placeholderSvg) := by
    simp only [convertIcoToSvg]
    have hn : ¬ f.bytes.length < 6 := by omega
    rw [if_neg hn, h1, h2]
    rfl
  have hres : POST env (some f) (some "svg")
      = ConvResponse.fileRes (strToBytes placeholderSvg) "image/svg+xml"
          (String.mk (firstSeg f.name.toList) ++ "." ++ "svg") := by
    unfold POST
    dsimp only
    rw [if_neg (show ¬("svg" : String) = "" by decide)]
    unfold postDispatch
    rw [hext]
    rw [if_pos (show isValidIconFormat "ico" = true from rfl),
      if_neg (show ¬("ico" : String) = "svg" by decide),
      if_pos (show ("ico" : String) = "ico" from rfl),
      if_neg (show ¬("svg" : String) = "png" by decide),
      if_neg (show ¬("svg" : String) = "jpeg" by decide),
      if_neg (show ¬("svg" : String) = "jpg" by decide),
      if_neg (show ¬("svg" : String) = "webp" by decide),
      if_pos (show ("svg" : String) = "svg" from rfl),
      hconv]
  refine ⟨hres, ?_, by decide⟩
  rw [hres]
  rfl

/-- Witness for the amended C5 at a concrete 6-byte non-decodable buffer. -/
theorem ico_to_svg_placeholder_witness :
    getFileExtension "f.ico" = "ico"
    ∧ 6 ≤ ([0, 0, 0, 0, 0, 0] : List Nat).length
    ∧ failEnv.icoDecode1 [0, 0, 0, 0, 0, 0] = Except.error "engine failure"
    ∧ failEnv.icoDecode2 [0, 0, 0, 0, 0, 0] = Except.error "engine failure"
    ∧ POST failEnv (some ⟨"f.ico", [0, 0, 0, 0, 0, 0]⟩) (some "svg")
        = ConvResponse.fileRes (strToBytes placeholderSvg) "image/svg+xml"
            (String.mk (firstSeg "f.ico".toList) ++ "." ++ "svg") :=
  ⟨by decide, by decide, rfl, rfl,
    (ico_to_svg_placeholder failEnv ⟨"f.ico", [0, 0, 0, 0, 0, 0]⟩
      "engine failure" "engine failure" (by decide) (by decide) rfl rfl).1⟩

/-- C6: for every image with known positive dimensions, the image-to-PDF
    geometry computes the scale as the minimum of availableWidth over
    imageWidth, availableHeight over imageHeight and 1, so the scale never
    exceeds 1; the scaled width and height fit within the page dimensions
    minus twice the 50-point margin; the aspect ratio is preserved; and
    the image is centred on the page (for A4 portrait the page is
    595.28 by 841.89 points). -/
theorem image_to_pdf_geometry (imgWidth imgHeight : ℚ) (pageSize : PageSize)
    (orientation : PageOrientation) (L : PdfLayout)
    (hw : 0 < imgWidth) (hh : 0 < imgHeight)
    (hL : L = imageToPdfLayout imgWidth imgHeight pageSize orientation 50) :
    L.scale
        = min (min ((L.pageWidth - 50 * 2) / imgWidth) ((L.pageHeight - 50 * 2) / imgHeight)) 1
    ∧ L.scale ≤ 1
    ∧ L.scaledWidth = imgWidth * L.scale
    ∧ L.scaledHeight = imgHeight * L.scale
    ∧ L.scaledWidth ≤ L.pageWidth - 50 * 2
    ∧ L.scaledHeight ≤ L.pageHeight - 50 * 2
    ∧ L.scaledWidth * imgHeight = L.scaledHeight * imgWidth
    ∧ L.x * 2 + L.scaledWidth = L.pageWidth
    ∧ L.y * 2 + L.scaledHeight = L.pageHeight
    ∧ (pageSize = PageSize.A4 → orientation = PageOrientation.portrait →
        L.pageWidth = 59528 / 100 ∧ L.pageHeight = 84189 / 100) := by
  subst hL
  cases pageSize <;> cases orientation <;>
    · dsimp only [imageToPdfLayout]
      refine ⟨rfl, min_le_right _ _, rfl, rfl,
        mul_min_div_le_left imgWidth _ _ hw,
        mul_min_div_le_right imgHeight _ _ hh,
        by ring, by ring, by ring, ?_⟩
      intro h1 h2
      first
        | exact ⟨rfl, rfl⟩
        | exact absurd h1 (by decide)
        | exact absurd h2 (by decide)

/-- Witness for C6 at the 2000-by-1000 image of the claim, on A4
    portrait. -/
theorem image_to_pdf_geometry_witness :
    (0 : ℚ) < 2000 ∧ (0 : ℚ) < 1000
    ∧ (imageToPdfLayout 2000 1000 PageSize.A4 PageOrientation.portrait 50).scale ≤ 1
    ∧ (imageToPdfLayout 2000 1000 PageSize.A4 PageOrientation.portrait 50).scaledWidth
        ≤ (imageToPdfLayout 2000 1000 PageSize.A4 PageOrientation.portrait 50).pageWidth
          - 50 * 2 :=
  ⟨by norm_num, by norm_num,
    (image_to_pdf_geometry 2000 1000 PageSize.A4 PageOrientation.portrait _
      (by norm_num) (by norm_num) rfl).2.1,
    (image_to_pdf_geometry 2000 1000 PageSize.A4 PageOrientation.portrait _
      (by norm_num) (by norm_num) rfl).2.2.2.2.1⟩
